import Mathlib

/-!
Verification development for the checkout / payment-reconciliation core of
the Carnimore repository: the client-side input validator
(`src/services/paymentService.ts`), the serverless postback handlers
(`netlify/functions/payment-postback.ts` and the EPN / JSON handler
variants), the checkout page timeout logic (`src/pages/CheckoutPage.tsx`),
the polling subscriber, and the log-sanitisation helpers.

JavaScript strings are modelled as Lean `String` / `List Char`; JavaScript
`undefined`-able values as `Option`; thrown exceptions caught by the
handlers' top-level `try/catch` as error responses.  Database writes go
through explicit association-list states.  All definitions are executable.
-/

/-- Whitespace test used to model the JavaScript regular expression `\s`
and `String.prototype.trim` on the ASCII inputs that occur in this code
base (space, tab, newline, carriage return, form feed, vertical tab). -/
def isWsChar (c : Char) : Bool :=
  c = ' ' || c = '\t' || c = '\n' || c = '\r' || c = '\x0b' || c = '\x0c'

/-- Model of `s.replace(/\s+/g, '')`: remove every whitespace character. -/
def stripWsS (s : String) : String :=
  String.mk (s.data.filter (fun c => !isWsChar c))

/-- Model of `String.prototype.trim` on a character list. -/
def jsTrimChars (cs : List Char) : List Char :=
  ((cs.dropWhile isWsChar).reverse.dropWhile isWsChar).reverse

/-- Model of `String.prototype.trim` on a `String`. -/
def jsTrimS (s : String) : String :=
  String.mk (jsTrimChars s.data)

/-- Model of `String.prototype.split` with a single-character separator:
splits at every occurrence of the separator, keeping empty pieces, so the
result always has one more piece than there are separators. -/
def splitOnChar (sep : Char) : List Char → List (List Char)
  | [] => [[]]
  | c :: rest =>
    let r := splitOnChar sep rest
    if c = sep then [] :: r
    else
      match r with
      | [] => [[c]]
      | h :: t => (c :: h) :: t

/-- Numeric value of a hexadecimal digit, if any (`0-9`, `a-f`, `A-F` by
character code). -/
def hexVal (c : Char) : Option Nat :=
  let n := c.toNat
  if 48 ≤ n && n ≤ 57 then some (n - 48)
  else if 97 ≤ n && n ≤ 102 then some (n - 87)
  else if 65 ≤ n && n ≤ 70 then some (n - 55)
  else none

/-- Model of JavaScript `decodeURIComponent`, restricted to the ASCII
payloads the card processor sends: `%XX` with `XX < 80` hex decodes to the
corresponding character, a malformed or non-ASCII escape makes the call
throw, which the model reports as `none`.  (Real `decodeURIComponent`
additionally decodes multi-byte UTF-8 escape sequences; those never occur
in the processor's postbacks and are treated as failures here.) -/
def percentDecode : List Char → Option (List Char)
  | [] => some []
  | '%' :: h1 :: h2 :: rest =>
    match hexVal h1, hexVal h2 with
    | some a, some b =>
      if a * 16 + b < 128 then
        (percentDecode rest).map (fun r => Char.ofNat (a * 16 + b) :: r)
      else none
    | _, _ => none
  | '%' :: _ => none
  | c :: rest => (percentDecode rest).map (fun r => c :: r)

/-- JavaScript truthiness of a possibly-`undefined` string: `undefined`
and the empty string are falsy, every other string is truthy. -/
def truthyS : Option String → Bool
  | some s => !s.isEmpty
  | none => false

/-- Model of the JavaScript expression `a || b` on possibly-`undefined`
strings: the first operand if it is truthy, otherwise the second. -/
def jsOr (a b : Option String) : Option String :=
  if truthyS a then a else b

/-- Model of `a || d` where `d` is a string default. -/
def jsOrD (a : Option String) (d : String) : String :=
  match a with
  | some s => if s.isEmpty then d else s
  | none => d

/-- Last-assignment-wins field lookup on the association list produced by
`Object.fromEntries` / an object-spread `reduce`: a later pair with the
same key overwrites an earlier one, even when its value is `undefined`. -/
def getField (k : String) (kvs : List (String × Option String)) : Option String :=
  kvs.foldl (fun acc p => if p.1 = k then p.2 else acc) none

/-! ## Amount formatting (`formatAmount`, `paymentService.ts` lines 4-7)

The source is
`Number(amount).toFixed(2).replace(/^(\d)\./, '0$1.')`.
Amounts are modelled as exact non-negative cent counts; for such amounts
(`9.5`, `0.5`, `19.99`, ...) JavaScript `toFixed(2)` yields precisely the
decimal string with two fraction digits produced by `jsToFixed2`. -/

/-- Two-digit rendering of a fraction part below 100. -/
def twoDigits (n : Nat) : String :=
  if n < 10 then "0" ++ toString n else toString n

/-- Model of `Number.prototype.toFixed(2)` on an amount given in cents. -/
def jsToFixed2 (cents : Nat) : String :=
  toString (cents / 100) ++ "." ++ twoDigits (cents % 100)

/-- Model of `.replace(/^(\d)\./, '0$1.')`: when the string starts with a
single digit followed by a dot, the replacement inserts a `0` before that
digit; otherwise the string is unchanged. -/
def leadingDigitDotFix (s : String) : String :=
  match s.data with
  | d :: '.' :: rest => if d.isDigit then String.mk ('0' :: d :: '.' :: rest) else s
  | _ => s

/-- Model of `formatAmount` from `paymentService.ts` lines 4-7 (and the
identical copy at `part_003` lines 162-164), on exact cent amounts. -/
def formatAmount (cents : Nat) : String :=
  leadingDigitDotFix (jsToFixed2 cents)

/-- C6: `formatAmount` does NOT render `9.5` as `"9.50"` and `0.5` as
`"0.50"`.  The regular-expression replacement `^(\d)\.` → `0$1.` matches
every amount whose integer part is a single digit, so the code produces
`"09.50"` for `9.5` and `"00.50"` for `0.5`, contradicting both the claim
and the code's own comment ("leading 0 if under $1"). -/
theorem formatAmount_adds_spurious_leading_zero :
    formatAmount 950 = "09.50" ∧ formatAmount 50 = "00.50" ∧
    formatAmount 950 ≠ "9.50" ∧ formatAmount 50 ≠ "0.50" := by
  refine ⟨rfl, rfl, ?_, ?_⟩ <;> decide

/-! ## The EPN postback handler (`part_006` lines 100-287)

This handler parses the processor's comma-delimited postback, validates the
restrict key, and applies the outcome to the `orders` table.  The parsed
payload is an ordered list of `(key, value)` pairs where a pair without an
`=` sign gets an `undefined` value, matching the object built by the
source's `reduce`. -/

/-- Parse one `key=value` pair: split on `=`, trim and percent-decode every
piece (the source maps `decodeURIComponent` over all pieces of the split,
so a malformed escape anywhere in the pair throws), then keep the first
piece as the key and the second, when present, as the value. -/
def parsePairKV (pair : List Char) : Option (String × Option String) :=
  match (splitOnChar '=' pair).mapM (fun s => percentDecode (jsTrimChars s)) with
  | none => none
  | some pieces =>
    match pieces with
    | [] => none
    | k :: rest => some (String.mk k, (rest.head?).map String.mk)

/-- Model of the `part_006` body parse (lines 134-141): split the raw body
on commas, trim each pair, then split each pair on `=` with per-piece trim
and percent-decode. -/
def parseEpnBody (body : List Char) : Option (List (String × Option String)) :=
  ((splitOnChar ',' body).map jsTrimChars).mapM parsePairKV

/-- Row of the `orders` table as touched by the EPN handler: payment
status, processor transaction id, and the stored processor response. -/
structure EpnOrder where
  paymentStatus : String
  processorId : Option String
  processorResponse : Option (List (String × Option String))
  deriving Repr, DecidableEq

/-- The `orders` table, keyed by `order_id`. -/
abbrev EpnStore := List (String × EpnOrder)

/-- Supabase `update ... eq('order_id', oid)`: rewrite every row whose key
matches (order ids are unique in practice; a zero-row match is not an
error). -/
def updateOrderRows (store : EpnStore) (oid : String) (f : EpnOrder → EpnOrder) : EpnStore :=
  store.map (fun p => if p.1 = oid then (p.1, f p.2) else p)

/-- Payment status of an order in the store. -/
def orderStatus (store : EpnStore) (oid : String) : Option String :=
  (store.find? (fun p => p.1 == oid)).map (fun p => p.2.paymentStatus)

/-- Structured HTTP response of a postback handler, capturing the status
code and the JSON body fields the handlers emit. -/
structure PostbackResp where
  statusCode : Nat
  ok : Bool
  status : Option String
  message : Option String
  transactionId : Option String
  authCode : Option String
  orderId : Option String
  errMsg : Option String
  deriving Repr, DecidableEq

/-- The 500 response produced by the handler's top-level `catch` in
`part_006`: generic message plus the thrown error's text. -/
def epnErr (msg : String) : PostbackResp :=
  { statusCode := 500, ok := false, status := none,
    message := some "Failed to process postback", transactionId := none,
    authCode := none, orderId := none, errMsg := some msg }

/-- Outcome-to-status mapping of `part_006` lines 221-222: `Success=Y` maps
to `paid`, `Success=N` to `failed`, anything else to `pending`. -/
def epnNewStatus (data : List (String × Option String)) : String :=
  if getField "Success" data = some "Y" then "paid"
  else if getField "Success" data = some "N" then "failed"
  else "pending"

/-- Steps of the `part_006` handler after a successful body parse: response
format validation (lines 148-150), restrict-key validation (lines 167-173),
field extraction (lines 176-183), required-field check (lines 185-194), and
the unconditional `orders` update (lines 218-234). -/
def epnProcess (restrictKey : Option String) (data : List (String × Option String))
    (store : EpnStore) : PostbackResp × EpnStore :=
  if !truthyS (getField "Success" data) || !truthyS (getField "RespText" data) then
    (epnErr "Invalid postback data format", store)
  else if truthyS (getField "Postback.RestrictKey" data) &&
      !(getField "Postback.RestrictKey" data == restrictKey) then
    (epnErr "Invalid RestrictKey", store)
  else
    let success := getField "Success" data = some "Y"
    let respText := jsOrD (getField "RespText" data) "Unknown response"
    let txn := getField "XactID" data
    let oid := jsOr (getField "Postback.OrderID" data) (getField "OrderID" data)
    if !truthyS txn || !truthyS oid then
      (epnErr "Missing required fields", store)
    else
      let newStatus := epnNewStatus data
      let store2 := updateOrderRows store (oid.getD "")
        (fun _ => { paymentStatus := newStatus, processorId := txn,
                    processorResponse := some data })
      ({ statusCode := 200, ok := true, status := some newStatus,
         message := some (if respText.isEmpty then
             (if success then "Payment approved" else "Payment declined")
           else respText),
         transactionId := txn, authCode := getField "AuthCode" data,
         orderId := oid, errMsg := none }, store2)

/-- Full `part_006` handler: empty-body check, body parse, then
`epnProcess`. -/
def epnHandler (restrictKey : Option String) (body : String) (store : EpnStore) :
    PostbackResp × EpnStore :=
  if body.isEmpty then (epnErr "Missing postback data", store)
  else
    match parseEpnBody body.data with
    | none => (epnErr "Invalid postback data format", store)
    | some data => epnProcess restrictKey data store

/-- C1: the EPN postback handler does NOT preserve a terminal order status.
An order already `paid` that receives an indeterminate postback
(`Success=U`) is regressed to `pending`: the handler has no terminal-state
check and unconditionally writes the mapped status, while acknowledging
with 200. -/
theorem epn_postback_regresses_paid_to_pending :
    orderStatus [("ord1", ⟨"paid", some "41", none⟩)] "ord1" = some "paid" ∧
    (epnHandler (some "rk")
      "Success=U,RespText=Hold,XactID=42,Postback.OrderID=ord1"
      [("ord1", ⟨"paid", some "41", none⟩)]).1.statusCode = 200 ∧
    orderStatus (epnHandler (some "rk")
      "Success=U,RespText=Hold,XactID=42,Postback.OrderID=ord1"
      [("ord1", ⟨"paid", some "41", none⟩)]).2 "ord1" = some "pending" := by
  exact ⟨rfl, rfl, by decide⟩

/-- Finding a row after `updateOrderRows` applied the row function exactly
to the rows with the matching key. -/
theorem find_updateOrderRows (store : EpnStore) (oid : String) (f : EpnOrder → EpnOrder) :
    (updateOrderRows store oid f).find? (fun p => p.1 == oid) =
      (store.find? (fun p => p.1 == oid)).map (fun p => (p.1, f p.2)) := by
  induction store with
  | nil => rfl
  | cons h t ih =>
    by_cases hk : h.1 = oid
    · simp [updateOrderRows, List.find?_cons, hk]
    · simp only [updateOrderRows, List.map_cons, if_neg hk] at ih ⊢
      rw [List.find?_cons, List.find?_cons]
      have : (h.1 == oid) = false := by simpa using hk
      simp [this, ih]

/-- C3 counterexample: on an order still `pending`, an indeterminate
postback (`Success=U`) leaves the status `pending` but does NOT leave the
row unmutated: the handler still rewrites the row, storing the processor
transaction id (and the raw response). -/
theorem epn_indeterminate_postback_mutates_pending_row :
    orderStatus (epnHandler (some "rk")
      "Success=U,RespText=Hold,XactID=42,Postback.OrderID=ord1"
      [("ord1", ⟨"pending", none, none⟩)]).2 "ord1" = some "pending" ∧
    (epnHandler (some "rk")
      "Success=U,RespText=Hold,XactID=42,Postback.OrderID=ord1"
      [("ord1", ⟨"pending", none, none⟩)]).2 ≠
      [("ord1", ⟨"pending", none, none⟩)] ∧
    ((epnHandler (some "rk")
      "Success=U,RespText=Hold,XactID=42,Postback.OrderID=ord1"
      [("ord1", ⟨"pending", none, none⟩)]).2.find? (fun p => p.1 == "ord1")).map
        (fun p => p.2.processorId) = some (some "42") := by
  refine ⟨by decide, by decide, by decide⟩

/-- C3 (amended): for an order in `pending` status, a valid postback maps
the outcome to the stored order status exactly as `Success=Y` ⇒ `paid`,
`Success=N` ⇒ `failed`, anything else (indeterminate) ⇒ `pending`; in every
case the handler rewrites the row, storing the processor transaction id and
the raw payload alongside the mapped status. -/
theorem epn_pending_order_outcome_mapping (rk : Option String)
    (data : List (String × Option String)) (store : EpnStore) (oid : String)
    (ord : EpnOrder)
    (hS : truthyS (getField "Success" data) = true)
    (hR : truthyS (getField "RespText" data) = true)
    (hK : (truthyS (getField "Postback.RestrictKey" data) &&
        !(getField "Postback.RestrictKey" data == rk)) = false)
    (hT : truthyS (getField "XactID" data) = true)
    (hO : jsOr (getField "Postback.OrderID" data) (getField "OrderID" data) = some oid)
    (hOne : oid ≠ "")
    (hFind : store.find? (fun p => p.1 == oid) = some (oid, ord))
    (_hPend : ord.paymentStatus = "pending") :
    (epnProcess rk data store).1.statusCode = 200 ∧
    orderStatus (epnProcess rk data store).2 oid = some (epnNewStatus data) ∧
    ((epnProcess rk data store).2.find? (fun p => p.1 == oid)) =
      some (oid, { paymentStatus := epnNewStatus data,
                   processorId := getField "XactID" data,
                   processorResponse := some data }) ∧
    (getField "Success" data = some "Y" → epnNewStatus data = "paid") ∧
    (getField "Success" data = some "N" → epnNewStatus data = "failed") ∧
    (getField "Success" data ≠ some "Y" → getField "Success" data ≠ some "N" →
      epnNewStatus data = "pending") := by
  have hIE : oid.isEmpty = false := by
    rw [Bool.eq_false_iff]
    intro h
    exact hOne ((String.isEmpty_iff oid).mp h)
  have hOidTruthy : truthyS (jsOr (getField "Postback.OrderID" data)
      (getField "OrderID" data)) = true := by
    rw [hO]; simp [truthyS, hIE]
  have hcond : (!truthyS (getField "Success" data) ||
      !truthyS (getField "RespText" data)) = false := by
    simp [hS, hR]
  have hmiss : (!truthyS (getField "XactID" data) ||
      !truthyS (jsOr (getField "Postback.OrderID" data) (getField "OrderID" data))) = false := by
    simp [hT, hOidTruthy]
  have hget : (jsOr (getField "Postback.OrderID" data)
      (getField "OrderID" data)).getD "" = oid := by rw [hO]; rfl
  have hfind2 : ((epnProcess rk data store).2.find? (fun p => p.1 == oid)) =
      some (oid, { paymentStatus := epnNewStatus data,
                   processorId := getField "XactID" data,
                   processorResponse := some data }) := by
    simp only [epnProcess, hcond, Bool.false_eq_true, if_false, hK, hmiss, hget]
    rw [find_updateOrderRows, hFind]
    rfl
  refine ⟨?_, ?_, hfind2, ?_, ?_, ?_⟩
  · simp only [epnProcess, hcond, Bool.false_eq_true, if_false, hK, hmiss]
  · rw [orderStatus, hfind2]
    rfl
  · intro h; simp [epnNewStatus, h]
  · intro h; simp [epnNewStatus, h]
  · intro h1 h2; simp [epnNewStatus, h1, h2]

/-- Witness for the amended C3 theorem: a concrete declined postback on a
concrete pending order ends with stored status `failed`. -/
theorem epn_pending_order_outcome_mapping_witness :
    orderStatus (epnProcess (some "rk")
      [("Success", some "N"), ("RespText", some "Declined"),
       ("XactID", some "42"), ("Postback.OrderID", some "ord1")]
      [("ord1", ⟨"pending", none, none⟩)]).2 "ord1" = some "failed" := by
  have h := epn_pending_order_outcome_mapping (some "rk")
    [("Success", some "N"), ("RespText", some "Declined"),
     ("XactID", some "42"), ("Postback.OrderID", some "ord1")]
    [("ord1", ⟨"pending", none, none⟩)] "ord1" ⟨"pending", none, none⟩
    (by decide) (by decide) (by decide) (by decide) (by decide)
    (by decide) (by decide) rfl
  have h2 := h.2.1
  rw [h2]
  decide

/-! ## The payment_logs postback handler (`payment-postback.ts`)

This variant of the ingestor upserts a `payment_logs` row keyed on the
processor transaction id, updates the `orders` row to `paid` on success,
and inserts a `payments` row on success. -/

/-- A `payment_logs` row (`payment-postback.ts` lines 91-100), without the
`updated_at` timestamp, which is not modelled. -/
structure LogRow where
  orderId : String
  paymentStatus : String
  processorResponse : List (String × Option String)
  deriving Repr, DecidableEq

/-- A `payments` row (`payment-postback.ts` lines 128-134). -/
structure PayRow where
  orderId : String
  paymentMethod : String
  paymentStatus : String
  amountPaid : Option String
  transactionId : String
  deriving Repr, DecidableEq

/-- Durable state touched by `payment-postback.ts`: the `orders` table
(order id to payment status), the `payment_logs` table keyed by
transaction id, and the insert-only `payments` table. -/
structure PbState where
  orders : List (String × String)
  paymentLogs : List (String × LogRow)
  payments : List PayRow
  deriving Repr, DecidableEq

/-- Supabase `upsert` with `onConflict: 'transaction_id'`: replace the row
with the matching key when one exists, otherwise append. -/
def upsertLog (logs : List (String × LogRow)) (txn : String) (row : LogRow) :
    List (String × LogRow) :=
  if logs.any (fun p => p.1 == txn) then
    logs.map (fun p => if p.1 = txn then (txn, row) else p)
  else logs ++ [(txn, row)]

/-- Model of the `payment-postback.ts` body parse (lines 33-51): separator
is `;` when the body contains one, otherwise `,`; each pair is split on `=`
with per-piece trim and percent-decode (pairs are not trimmed as a whole in
this variant). -/
def parsePbBody (body : List Char) : Option (List (String × Option String)) :=
  (splitOnChar (if body.contains ';' then ';' else ',') body).mapM parsePairKV

/-- Steps of `payment-postback.ts` after a successful parse: field
extraction (lines 53-59), required-field check (lines 61-68), the
`payment_logs` upsert (lines 91-100), and on success the `orders` update
and `payments` insert (lines 112-145). -/
def pbProcess (data : List (String × Option String)) (st : PbState) :
    PostbackResp × PbState :=
  let txn := getField "XactID" data
  let oid := jsOr (jsOr (jsOr (getField "Postback.OrderID" data)
      (getField "PostbackID" data)) (getField "OrderID" data))
    (getField "orderId" data)
  if !truthyS txn || !truthyS oid then
    ({ statusCode := 500, ok := false, status := none,
       message := some "Failed to process postback", transactionId := none,
       authCode := none, orderId := none,
       errMsg := some "Missing required fields" }, st)
  else
    let success := getField "Success" data = some "Y" ||
      (match getField "Response" data with
       | some s => s.startsWith "Y"
       | none => false)
    let respText := jsOr (getField "RespText" data) (getField "Response" data)
    let amount := jsOr (getField "Total" data) (getField "Postback.Total" data)
    let txnS := txn.getD ""
    let oidS := oid.getD ""
    let logStatus := if success then "completed"
      else if getField "Success" data = some "N" then "failed" else "pending"
    let newLog : LogRow := ⟨oidS, logStatus, data⟩
    let st2 : PbState := { st with paymentLogs := upsertLog st.paymentLogs txnS newLog }
    let st3 : PbState :=
      if success then
        { st2 with
          orders := st2.orders.map (fun p => if p.1 = oidS then (p.1, "paid") else p),
          payments := st2.payments ++
            [⟨oidS, "credit_card", "success", amount, txnS⟩] }
      else st2
    ({ statusCode := 200, ok := success,
       status := some (if success then "approved"
         else if getField "Success" data = some "N" then "declined" else "pending"),
       message := some (jsOrD respText
         (if success then "Payment approved" else "Payment declined")),
       transactionId := txn, authCode := getField "AuthCode" data,
       orderId := oid, errMsg := none }, st3)

/-- Full `payment-postback.ts` handler: empty-body check, body parse, then
`pbProcess`. -/
def pbHandler (body : String) (st : PbState) : PostbackResp × PbState :=
  if body.isEmpty then
    ({ statusCode := 500, ok := false, status := none,
       message := some "Failed to process postback", transactionId := none,
       authCode := none, orderId := none,
       errMsg := some "Missing request body" }, st)
  else
    match parsePbBody body.data with
    | none =>
      ({ statusCode := 500, ok := false, status := none,
         message := some "Failed to process postback", transactionId := none,
         authCode := none, orderId := none,
         errMsg := some "Invalid postback data format" }, st)
    | some data => pbProcess data st

/-- C2: delivering the very same approved postback twice is NOT a complete
no-op in `payment-postback.ts`.  The second ingestion leaves the stored
order status, the `payment_logs` row, and the stored transaction id
unchanged and still returns 200, but the unconditional `payments` insert
creates a second durable `payments` record. -/
theorem pb_duplicate_postback_inserts_second_payment_row :
    (pbHandler "Success=Y,RespText=Approved,XactID=42,OrderID=ord1,Total=19.99"
      ⟨[("ord1", "pending")], [], []⟩).1.statusCode = 200 ∧
    (pbHandler "Success=Y,RespText=Approved,XactID=42,OrderID=ord1,Total=19.99"
      ((pbHandler "Success=Y,RespText=Approved,XactID=42,OrderID=ord1,Total=19.99"
        ⟨[("ord1", "pending")], [], []⟩).2)).1.statusCode = 200 ∧
    (pbHandler "Success=Y,RespText=Approved,XactID=42,OrderID=ord1,Total=19.99"
      ((pbHandler "Success=Y,RespText=Approved,XactID=42,OrderID=ord1,Total=19.99"
        ⟨[("ord1", "pending")], [], []⟩).2)).2.orders =
      (pbHandler "Success=Y,RespText=Approved,XactID=42,OrderID=ord1,Total=19.99"
        ⟨[("ord1", "pending")], [], []⟩).2.orders ∧
    (pbHandler "Success=Y,RespText=Approved,XactID=42,OrderID=ord1,Total=19.99"
      ((pbHandler "Success=Y,RespText=Approved,XactID=42,OrderID=ord1,Total=19.99"
        ⟨[("ord1", "pending")], [], []⟩).2)).2.paymentLogs =
      (pbHandler "Success=Y,RespText=Approved,XactID=42,OrderID=ord1,Total=19.99"
        ⟨[("ord1", "pending")], [], []⟩).2.paymentLogs ∧
    (pbHandler "Success=Y,RespText=Approved,XactID=42,OrderID=ord1,Total=19.99"
      ⟨[("ord1", "pending")], [], []⟩).2.payments.length = 1 ∧
    (pbHandler "Success=Y,RespText=Approved,XactID=42,OrderID=ord1,Total=19.99"
      ((pbHandler "Success=Y,RespText=Approved,XactID=42,OrderID=ord1,Total=19.99"
        ⟨[("ord1", "pending")], [], []⟩).2)).2.payments.length = 2 := by
  refine ⟨rfl, rfl, by decide, by decide, by decide, by decide⟩

/-- C4: when the parsed payload lacks the transaction id or every order-id
field, both postback handlers return a 500 response raised from the
missing-required-fields check and leave the store untouched (the `part_006`
variant also reports the missing-fields error text in its response body). -/
theorem postback_missing_fields_rejected_without_write :
    (∀ (rk : Option String) (data : List (String × Option String)) (store : EpnStore),
      truthyS (getField "Success" data) = true →
      truthyS (getField "RespText" data) = true →
      (truthyS (getField "Postback.RestrictKey" data) &&
        !(getField "Postback.RestrictKey" data == rk)) = false →
      (!truthyS (getField "XactID" data) ||
        !truthyS (jsOr (getField "Postback.OrderID" data)
          (getField "OrderID" data))) = true →
      (epnProcess rk data store).1.statusCode = 500 ∧
      (epnProcess rk data store).1.errMsg = some "Missing required fields" ∧
      (epnProcess rk data store).2 = store) ∧
    (∀ (data : List (String × Option String)) (st : PbState),
      (!truthyS (getField "XactID" data) ||
        !truthyS (jsOr (jsOr (jsOr (getField "Postback.OrderID" data)
            (getField "PostbackID" data)) (getField "OrderID" data))
          (getField "orderId" data))) = true →
      (pbProcess data st).1.statusCode = 500 ∧
      (pbProcess data st).1.errMsg = some "Missing required fields" ∧
      (pbProcess data st).2 = st) := by
  constructor
  · intro rk data store hS hR hK hmiss
    have hcond : (!truthyS (getField "Success" data) ||
        !truthyS (getField "RespText" data)) = false := by simp [hS, hR]
    refine ⟨?_, ?_, ?_⟩ <;>
      simp only [epnProcess, hcond, Bool.false_eq_true, if_false, hK, hmiss, if_true] <;> rfl
  · intro data st hmiss
    refine ⟨?_, ?_, ?_⟩ <;>
      simp only [pbProcess, hmiss, if_true]

/-- Witness for the missing-fields theorem: a concrete payload with an
order id but no `XactID` is rejected by both handlers with status 500 and
no store mutation. -/
theorem postback_missing_fields_rejected_without_write_witness :
    ((epnProcess (some "rk")
        [("Success", some "Y"), ("RespText", some "Approved"),
         ("Postback.OrderID", some "ord1")]
        [("ord1", ⟨"pending", none, none⟩)]).1.statusCode = 500 ∧
      (epnProcess (some "rk")
        [("Success", some "Y"), ("RespText", some "Approved"),
         ("Postback.OrderID", some "ord1")]
        [("ord1", ⟨"pending", none, none⟩)]).1.errMsg =
          some "Missing required fields" ∧
      (epnProcess (some "rk")
        [("Success", some "Y"), ("RespText", some "Approved"),
         ("Postback.OrderID", some "ord1")]
        [("ord1", ⟨"pending", none, none⟩)]).2 =
          [("ord1", ⟨"pending", none, none⟩)]) ∧
    ((pbProcess [("Success", some "Y"), ("OrderID", some "ord1")]
        ⟨[("ord1", "pending")], [], []⟩).1.statusCode = 500 ∧
      (pbProcess [("Success", some "Y"), ("OrderID", some "ord1")]
        ⟨[("ord1", "pending")], [], []⟩).1.errMsg =
          some "Missing required fields" ∧
      (pbProcess [("Success", some "Y"), ("OrderID", some "ord1")]
        ⟨[("ord1", "pending")], [], []⟩).2 = ⟨[("ord1", "pending")], [], []⟩) := by
  exact ⟨postback_missing_fields_rejected_without_write.1 (some "rk") _ _
      (by decide) (by decide) (by decide) (by decide),
    postback_missing_fields_rejected_without_write.2 _ _ (by decide)⟩

/-! ## The dual-format postback parser (`part_004` lines 49-101)

The `part_004` handler first attempts `JSON.parse(event.body)` and — still
inside the same `try` — re-parses the `FullResponse` field when it is a
string starting with `\x7b` (lines 55-57), assigning the parsed value back
onto the object; only when any of this throws does it fall back to the
delimited `key=value` parse with `;` or `,` as pair separator and per-piece
percent-decoding — the same delimited parse as `payment-postback.ts`
(`parsePbBody`).  Because the nested re-parse can throw AFTER the outer
parse succeeded, a well-formed JSON body with a brace-prefixed but invalid
`FullResponse` string is handed to the delimited fallback.

`JSON.parse` is modelled by a recursive-descent parser for the fragment of
JSON the processor actually posts: a single flat object whose keys and
values are strings (escapes `\" \\ \/ \n \t \r \b \f`; `\uXXXX` escapes and
non-string values are outside the modelled fragment and count as parse
failures). -/

/-- JSON insignificant whitespace (space, tab, line feed, carriage
return). -/
def isJsonWs (c : Char) : Bool :=
  c = ' ' || c = '\t' || c = '\n' || c = '\r'

/-- Skip insignificant JSON whitespace. -/
def skipJsonWs (cs : List Char) : List Char :=
  cs.dropWhile isJsonWs

/-- Single-character JSON string escapes: the self-representing three, then
the named control characters. -/
def jsonEsc (e : Char) : Option Char :=
  if e = '"' || e = '\\' || e = '/' then some e
  else if e = 'n' then some '\n'
  else if e = 't' then some '\t'
  else if e = 'r' then some '\r'
  else if e = 'b' then some '\x08'
  else if e = 'f' then some '\x0c'
  else none

/-- Parse the body of a JSON string after its opening quote, returning the
decoded content and the remainder after the closing quote.  Unescaped
control characters are rejected, as `JSON.parse` rejects them. -/
def parseJsonStringBody : List Char → Option (List Char × List Char)
  | [] => none
  | c :: rest =>
    if c = '\\' then
      match rest with
      | [] => none
      | e :: rest2 =>
        match jsonEsc e, parseJsonStringBody rest2 with
        | some ec, some (s, r) => some (ec :: s, r)
        | _, _ => none
    else if c = '"' then some ([], rest)
    else if c.toNat < 32 then none
    else
      match parseJsonStringBody rest with
      | some (s, r) => some (c :: s, r)
      | none => none

/-- Parse the members of a flat JSON object after its opening brace (or a
member separator), up to and including the closing brace; `fuel` bounds the
number of members and is instantiated with the input length. -/
def parseJsonMembers : Nat → List Char → Option (List (String × String) × List Char)
  | 0, _ => none
  | fuel + 1, cs =>
    match skipJsonWs cs with
    | [] => none
    | c0 :: r0 =>
      if c0 = '"' then
        match parseJsonStringBody r0 with
        | none => none
        | some (k, r1) =>
          match skipJsonWs r1 with
          | [] => none
          | c1 :: r2 =>
            if c1 = ':' then
              match skipJsonWs r2 with
              | [] => none
              | c2 :: r3 =>
                if c2 = '"' then
                  match parseJsonStringBody r3 with
                  | none => none
                  | some (v, r4) =>
                    match skipJsonWs r4 with
                    | [] => none
                    | c3 :: r5 =>
                      if c3 = ',' then
                        match parseJsonMembers fuel r5 with
                        | some (ms, r6) => some ((String.mk k, String.mk v) :: ms, r6)
                        | none => none
                      else if c3 = '}' then some ([(String.mk k, String.mk v)], r5)
                      else none
                else none
            else none
      else none

/-- Model of `JSON.parse` on the flat string-object fragment: a single
object literal with string keys and string values and nothing but
whitespace after it. -/
def parseJsonFlat (cs : List Char) : Option (List (String × String)) :=
  match skipJsonWs cs with
  | [] => none
  | c0 :: r0 =>
    if c0 = '{' then
      match skipJsonWs r0 with
      | [] => none
      | c1 :: r1 =>
        if c1 = '}' then (if (skipJsonWs r1).isEmpty then some [] else none)
        else
          match parseJsonMembers cs.length r0 with
          | some (ms, r) => if (skipJsonWs r).isEmpty then some ms else none
          | none => none
    else none

/-- A JSON field value after the `FullResponse` fix-up of lines 55-57: the
original string, or the object the nested `JSON.parse` produced. -/
inductive JVal where
  | strv (s : String)
  | objv (fields : List (String × String))
  deriving Repr, DecidableEq

/-- Last-assignment-wins property lookup on a parsed flat JSON object. -/
def lookupStr (k : String) (kvs : List (String × String)) : Option String :=
  kvs.foldl (fun acc p => if p.1 = k then some p.2 else acc) none

/-- Model of the single-character test `s.startsWith('\x7b')`. -/
def jsStartsWithBrace (s : String) : Bool :=
  match s.data with
  | c :: _ => c = '\x7b'
  | [] => false

/-- A parsed flat object viewed with every value still a string. -/
def allStrFields (fields : List (String × String)) : List (String × JVal) :=
  fields.map (fun kv => (kv.1, JVal.strv kv.2))

/-- The property assignment `parsedData.FullResponse = JSON.parse(...)`:
replace the `FullResponse` value with the parsed object (a `JSON.parse`
result has unique keys, so at most one entry is affected). -/
def setFullResponse (fields : List (String × String))
    (sub : List (String × String)) : List (String × JVal) :=
  fields.map (fun kv =>
    if kv.1 = "FullResponse" then (kv.1, JVal.objv sub) else (kv.1, JVal.strv kv.2))

/-- Result of the `part_004` format detection: the JSON branch (after the
`FullResponse` fix-up), the delimited fallback, or a failure of both (the
handler then responds 500). -/
inductive PostbackParse where
  | asJson (fields : List (String × JVal))
  | delimited (fields : List (String × Option String))
  | failed
  deriving Repr, DecidableEq

/-- Model of `part_004` lines 49-101: attempt the JSON parse first; when it
succeeds and the `FullResponse` value is a string starting with `\x7b`,
re-parse that string in the same `try` (lines 55-57), so a failure of the
nested parse also drops to the delimited fallback; only when the JSON
branch throws is the delimited `key=value` parse run (the same code as in
`payment-postback.ts`). -/
def parsePostbackBody (body : String) : PostbackParse :=
  match parseJsonFlat body.data with
  | some fields =>
    match lookupStr "FullResponse" fields with
    | some fr =>
      if jsStartsWithBrace fr then
        match parseJsonFlat fr.data with
        | some sub => PostbackParse.asJson (setFullResponse fields sub)
        | none =>
          match parsePbBody body.data with
          | some dfields => PostbackParse.delimited dfields
          | none => PostbackParse.failed
      else PostbackParse.asJson (allStrFields fields)
    | none => PostbackParse.asJson (allStrFields fields)
  | none =>
    match parsePbBody body.data with
    | some dfields => PostbackParse.delimited dfields
    | none => PostbackParse.failed

/-- Characters that serialize into a JSON string literally (no quote, no
backslash, no control character). -/
def plainJsonChar (c : Char) : Bool :=
  !(c == '"') && !(c == '\\') && decide (32 ≤ c.toNat)

/-- A key/value map all of whose keys and values are plain. -/
def plainKV (m : List (String × String)) : Bool :=
  m.all (fun kv => kv.1.data.all plainJsonChar && kv.2.data.all plainJsonChar)

/-- Serialization of one `"key":"value"` member. -/
def serializeMember (kv : String × String) : List Char :=
  '"' :: (kv.1.data ++ '"' :: ':' :: '"' :: (kv.2.data ++ ['"']))

/-- Comma-join of serialized members. -/
def joinComma : List (List Char) → List Char
  | [] => []
  | [x] => x
  | x :: y :: t => x ++ ',' :: joinComma (y :: t)

/-- Serialization of a flat string map as a JSON object body, the format
`JSON.stringify` produces for such a map. -/
def serializeFlatJson (m : List (String × String)) : List Char :=
  '{' :: (joinComma (m.map serializeMember) ++ ['}'])

/-- Rebuilding a string from its character data is the identity. -/
theorem string_mk_data (s : String) : String.mk s.data = s := by
  cases s
  rfl

/-- Skipping JSON whitespace in front of a non-whitespace character does
nothing. -/
theorem skipJsonWs_cons_not_ws (c : Char) (cs : List Char) (h : isJsonWs c = false) :
    skipJsonWs (c :: cs) = c :: cs := by
  simp [skipJsonWs, List.dropWhile_cons, h]

/-- The JSON string parser inverts serialization of a plain content
string. -/
theorem parseJsonStringBody_plain (s rest : List Char) (h : s.all plainJsonChar = true) :
    parseJsonStringBody (s ++ '"' :: rest) = some (s, rest) := by
  induction s with
  | nil =>
    rw [List.nil_append, parseJsonStringBody.eq_def]
    dsimp only
    rw [if_neg (by decide : ¬ ('"' : Char) = '\\'), if_pos rfl]
  | cons c t ih =>
    rw [List.all_cons, Bool.and_eq_true] at h
    obtain ⟨hc, ht⟩ := h
    simp only [plainJsonChar, Bool.and_eq_true, Bool.not_eq_true', beq_eq_false_iff_ne,
      decide_eq_true_eq] at hc
    obtain ⟨⟨hq, hb⟩, hn⟩ := hc
    rw [List.cons_append, parseJsonStringBody.eq_def]
    dsimp only
    rw [if_neg hb, if_neg hq, if_neg (by omega : ¬ c.toNat < 32), ih ht]

/-- Appending after a serialized member, in cons-normal form. -/
theorem serializeMember_append (kv : String × String) (z : List Char) :
    serializeMember kv ++ z =
      '"' :: (kv.1.data ++ '"' :: ':' :: '"' :: (kv.2.data ++ '"' :: z)) := by
  simp [serializeMember, List.append_assoc]

/-- The member parser inverts serialization of a non-empty plain map, given
at least one unit of fuel per member. -/
theorem parseJsonMembers_serialize (m : List (String × String)) :
    ∀ (fuel : Nat) (rest : List Char), m ≠ [] → m.length ≤ fuel → plainKV m = true →
      parseJsonMembers fuel (joinComma (m.map serializeMember) ++ '}' :: rest) =
        some (m, rest) := by
  induction m with
  | nil => intro fuel rest hne _ _; exact absurd rfl hne
  | cons kv t ih =>
    intro fuel rest _ hf hp
    rw [plainKV, List.all_cons, Bool.and_eq_true] at hp
    obtain ⟨hkv, ht⟩ := hp
    rw [Bool.and_eq_true] at hkv
    obtain ⟨hk, hv⟩ := hkv
    obtain ⟨f, rfl⟩ : ∃ f, fuel = f + 1 := by
      cases fuel with
      | zero => simp at hf
      | succ f => exact ⟨f, rfl⟩
    cases t with
    | nil =>
      rw [List.map_cons, List.map_nil, joinComma, serializeMember_append]
      rw [parseJsonMembers.eq_def]
      dsimp only
      rw [skipJsonWs_cons_not_ws _ _ (by decide)]
      dsimp only
      rw [if_pos rfl, parseJsonStringBody_plain _ _ hk]
      dsimp only
      rw [skipJsonWs_cons_not_ws _ _ (by decide)]
      dsimp only
      rw [if_pos rfl, skipJsonWs_cons_not_ws _ _ (by decide)]
      dsimp only
      rw [if_pos rfl, parseJsonStringBody_plain _ _ hv]
      dsimp only
      rw [skipJsonWs_cons_not_ws _ _ (by decide)]
      dsimp only
      rw [if_neg (by decide : ¬ ('}' : Char) = ','), if_pos rfl]
    | cons kv2 t2 =>
      have ih2 := ih f rest (by simp) (by simpa using Nat.le_of_succ_le_succ hf) ht
      rw [List.map_cons] at ih2
      simp only [List.map_cons, joinComma, List.append_assoc, List.cons_append,
        serializeMember_append]
      rw [parseJsonMembers.eq_def]
      dsimp only
      rw [skipJsonWs_cons_not_ws _ _ (by decide)]
      dsimp only
      rw [if_pos rfl, parseJsonStringBody_plain _ _ hk]
      dsimp only
      rw [skipJsonWs_cons_not_ws _ _ (by decide)]
      dsimp only
      rw [if_pos rfl, skipJsonWs_cons_not_ws _ _ (by decide)]
      dsimp only
      rw [if_pos rfl, parseJsonStringBody_plain _ _ hv]
      dsimp only
      rw [skipJsonWs_cons_not_ws _ _ (by decide)]
      dsimp only
      rw [if_pos rfl, ih2]

/-- Each serialized member contributes at least one character, so the
member count is bounded by the serialized length. -/
theorem joinComma_serialize_length (m : List (String × String)) :
    m.length ≤ (joinComma (m.map serializeMember)).length := by
  induction m with
  | nil => simp [joinComma]
  | cons kv t ih =>
    cases t with
    | nil =>
      simp [joinComma, serializeMember]
    | cons kv2 t2 =>
      rw [List.map_cons] at ih ⊢
      have hj : joinComma (serializeMember kv :: serializeMember kv2 ::
          t2.map serializeMember) =
          serializeMember kv ++ ',' :: joinComma (serializeMember kv2 ::
            t2.map serializeMember) := rfl
      rw [List.map_cons, hj]
      have hx : 1 ≤ (serializeMember kv).length := by simp [serializeMember]
      simp only [List.length_cons, List.length_append] at ih ⊢
      omega

/-- The flat-JSON parser inverts serialization: `JSON.parse` succeeds on
every serialized plain string map and returns exactly that map. -/
theorem parseJsonFlat_serialize (m : List (String × String)) (hp : plainKV m = true) :
    parseJsonFlat (serializeFlatJson m) = some m := by
  cases m with
  | nil => rfl
  | cons kv t =>
    rw [parseJsonFlat]
    generalize hF : (serializeFlatJson (kv :: t)).length = F
    have hfuel : (kv :: t).length ≤ F := by
      rw [← hF]
      have h1 := joinComma_serialize_length (kv :: t)
      simp only [serializeFlatJson, List.length_cons, List.length_append]
      simp only [List.length_cons] at h1
      omega
    have hm := parseJsonMembers_serialize (kv :: t) F [] (by simp) hfuel hp
    cases t with
    | nil =>
      rw [List.map_cons, List.map_nil] at hm
      simp only [joinComma] at hm
      rw [show serializeMember kv ++ ('}' : Char) :: ([] : List Char) =
          serializeMember kv ++ ['}'] from rfl, serializeMember_append] at hm
      rw [serializeFlatJson, List.map_cons, List.map_nil]
      simp only [joinComma]
      rw [serializeMember_append]
      rw [skipJsonWs_cons_not_ws _ _ (by decide)]
      dsimp only
      rw [if_pos rfl]
      rw [skipJsonWs_cons_not_ws _ _ (by decide)]
      dsimp only
      rw [if_neg (by decide : ¬ ('"' : Char) = '}')]
      rw [hm]
      rfl
    | cons kv2 t2 =>
      have hj : joinComma ((kv :: kv2 :: t2).map serializeMember) =
          serializeMember kv ++ ',' :: joinComma ((kv2 :: t2).map serializeMember) := by
        rw [List.map_cons, List.map_cons]
        exact rfl
      rw [hj, List.append_assoc, List.cons_append,
        show joinComma ((kv2 :: t2).map serializeMember) ++ ('}' : Char) :: ([] : List Char) =
          joinComma ((kv2 :: t2).map serializeMember) ++ ['}'] from rfl,
        serializeMember_append] at hm
      rw [serializeFlatJson, hj]
      rw [List.append_assoc, List.cons_append, serializeMember_append]
      rw [skipJsonWs_cons_not_ws _ _ (by decide)]
      dsimp only
      rw [if_pos rfl]
      rw [skipJsonWs_cons_not_ws _ _ (by decide)]
      dsimp only
      rw [if_neg (by decide : ¬ ('"' : Char) = '}')]
      rw [hm]
      rfl

/-- C5 counterexample: a well-formed JSON body is NOT always parsed as
JSON.  The body `\x7b"FullResponse":"\x7bbad"\x7d` is a valid flat JSON
object (the outer parse succeeds), but its `FullResponse` value starts with
`\x7b` and is itself invalid JSON, so the nested re-parse of lines 55-57
throws inside the same `try` and the handler hands the whole body to the
delimited fallback — which turns it into a single key with no value. -/
theorem json_fullresponse_reparse_falls_back_to_delimited :
    parseJsonFlat (serializeFlatJson [("FullResponse", "\x7bbad")]) =
      some [("FullResponse", "\x7bbad")] ∧
    parsePostbackBody (String.mk (serializeFlatJson [("FullResponse", "\x7bbad")])) =
      PostbackParse.delimited
        [(String.mk (serializeFlatJson [("FullResponse", "\x7bbad")]), none)] ∧
    parsePostbackBody (String.mk (serializeFlatJson [("FullResponse", "\x7bbad")])) ≠
      PostbackParse.asJson (allStrFields [("FullResponse", "\x7bbad")]) := by
  refine ⟨by decide, by decide, by decide⟩

/-- C5 (amended): the `part_004` ingestor supports both wire formats,
attempting the JSON parse first and using the delimited fallback exactly
when the JSON branch throws — which happens either when the body is not
JSON or when the body is well-formed JSON whose `FullResponse` value is a
`\x7b`-prefixed string that itself fails to parse (lines 55-57): (1) a
successful JSON parse whose `FullResponse` value, if present, does not
start with `\x7b` is used as is, never the delimited fallback; (2) when the
JSON parse fails, the delimited parse decides the outcome; (3) every
serialized plain flat JSON object without a brace-prefixed `FullResponse`
is parsed as JSON; (4) a `\x7b`-prefixed `FullResponse` that IS valid JSON
is replaced by its parsed object inside the JSON branch; (5) a concrete
delimited body is parsed by the fallback, honouring the `;` pair separator
and per-value percent-decoding. -/
theorem postback_parse_format_detection :
    (∀ (body : String) (fields : List (String × String)),
      parseJsonFlat body.data = some fields →
      (∀ fr : String, lookupStr "FullResponse" fields = some fr →
        jsStartsWithBrace fr = false) →
      parsePostbackBody body = PostbackParse.asJson (allStrFields fields)) ∧
    (∀ body : String, parseJsonFlat body.data = none →
      parsePostbackBody body =
        (match parsePbBody body.data with
         | some dfields => PostbackParse.delimited dfields
         | none => PostbackParse.failed)) ∧
    (∀ m : List (String × String), plainKV m = true →
      (∀ fr : String, lookupStr "FullResponse" m = some fr →
        jsStartsWithBrace fr = false) →
      parsePostbackBody (String.mk (serializeFlatJson m)) =
        PostbackParse.asJson (allStrFields m)) ∧
    parsePostbackBody (String.mk (serializeFlatJson
        [("FullResponse", "\x7b\x7d"), ("XactID", "9")])) =
      PostbackParse.asJson
        [("FullResponse", JVal.objv []), ("XactID", JVal.strv "9")] ∧
    parsePostbackBody "Success=Y;RespText=Approved%20OK;XactID=1" =
      PostbackParse.delimited
        [("Success", some "Y"), ("RespText", some "Approved OK"),
         ("XactID", some "1")] := by
  have hmain : ∀ (body : String) (fields : List (String × String)),
      parseJsonFlat body.data = some fields →
      (∀ fr : String, lookupStr "FullResponse" fields = some fr →
        jsStartsWithBrace fr = false) →
      parsePostbackBody body = PostbackParse.asJson (allStrFields fields) := by
    intro body fields h hFR
    rw [parsePostbackBody, h]
    dsimp only
    cases hl : lookupStr "FullResponse" fields with
    | none => rfl
    | some fr =>
      dsimp only
      simp [hFR fr hl]
  refine ⟨hmain, ?_, ?_, by decide, by decide⟩
  · intro body h
    rw [parsePostbackBody, h]
  · intro m hp hFR
    exact hmain (String.mk (serializeFlatJson m)) m (parseJsonFlat_serialize m hp) hFR

/-- Witness for the format-detection theorem: a concrete serialized JSON
body without a `FullResponse` field is parsed by the JSON branch, not the
delimited fallback. -/
theorem postback_parse_format_detection_witness :
    parsePostbackBody
        (String.mk (serializeFlatJson [("XactID", "9"), ("Postback.OrderID", "ord1")])) =
      PostbackParse.asJson
        (allStrFields [("XactID", "9"), ("Postback.OrderID", "ord1")]) := by
  exact postback_parse_format_detection.2.2.1
    [("XactID", "9"), ("Postback.OrderID", "ord1")] (by decide)
    (fun fr hfr => by simp [lookupStr] at hfr)

/-! ## The input validator (`paymentService.ts` lines 124-248, second
variant)

This `processPayment` validates required fields, the card number
(`validateCardNumber`: strip every non-digit, then test `^\d{15,16}$`),
the expiry date (`validateExpiryDate`, using JavaScript `parseInt` and
NaN-propagating comparisons against the 2-digit current year), the CVV
(`^\d{3,4}$`), and the shipping address, and only then dispatches the
request.  The current date is a parameter (`curYear2` is
`getFullYear() % 100`, `curMonth` is `getMonth() + 1`). -/

/-- Digits of a string (model of `s.replace(/\D/g, '')`). -/
def digitsOf (s : String) : List Char :=
  s.data.filter Char.isDigit

/-- Model of the regular-expression test `/^\d{15,16}$/.test`. -/
def testDigits15to16 (cs : List Char) : Bool :=
  cs.all Char.isDigit && decide (15 ≤ cs.length) && decide (cs.length ≤ 16)

/-- Model of `validateCardNumber` (lines 128-131). -/
def validateCardNumber (s : String) : Bool :=
  testDigits15to16 (digitsOf s)

/-- Model of `validateCVV` (lines 148-150), the test `/^\d{3,4}$/.test`. -/
def validateCVV (s : String) : Bool :=
  s.data.all Char.isDigit && decide (3 ≤ s.length) && decide (s.length ≤ 4)

/-- Model of JavaScript `parseInt` on the inputs this validator sees:
leading whitespace skipped, optional sign, then the leading run of decimal
digits; no digits give `NaN`, modelled as `none`. -/
def jsParseInt (s : String) : Option Int :=
  let cs := s.data.dropWhile isWsChar
  let core : List Char → Option Nat := fun l =>
    let ds := l.takeWhile Char.isDigit
    if ds.isEmpty then none
    else some (ds.foldl (fun acc c => 10 * acc + c.toNat - 48) 0)
  match cs with
  | '-' :: rest => (core rest).map (fun n => -(n : Int))
  | '+' :: rest => (core rest).map (fun n => (n : Int))
  | _ => (core cs).map (fun n => (n : Int))

/-- JavaScript `a < b` where `a` may be `NaN`: every comparison with `NaN`
is false. -/
def jsNLt (a : Option Int) (b : Int) : Bool :=
  match a with
  | some x => decide (x < b)
  | none => false

/-- JavaScript `a > b` with `NaN` on the left. -/
def jsNGt (a : Option Int) (b : Int) : Bool :=
  match a with
  | some x => decide (b < x)
  | none => false

/-- JavaScript `a === b` with possible `NaN` on the left. -/
def jsNEq (a : Option Int) (b : Int) : Bool :=
  match a with
  | some x => decide (x = b)
  | none => false

/-- Model of `validateExpiryDate` (lines 133-146): the year is compared,
via `parseInt`, against the TWO-digit current year, and `NaN` comparisons
are all false — so a non-numeric month or year passes, and a 4-digit year
always passes the year checks. -/
def validateExpiryDate (curYear2 curMonth : Int) (month year : String) : Bool :=
  let em := jsParseInt month
  let ey := jsParseInt year
  if jsNLt em 1 || jsNGt em 12 then false
  else if jsNLt ey curYear2 then false
  else if jsNEq ey curYear2 && jsNLt em curMonth then false
  else true

/-- Shipping address fields used by the validator. -/
structure ShipAddress where
  address : String
  zipCode : String
  deriving Repr, DecidableEq

/-- The payment form data handed to `processPayment`.  `amount` is an exact
cent count (`0` is the falsy amount). -/
structure PaymentData2 where
  cardNumber : String
  expiryMonth : String
  expiryYear : String
  cvv : String
  amount : Nat
  orderId : String
  shippingAddress : ShipAddress
  deriving Repr, DecidableEq

/-- The payload dispatched to the `process-payment` function on
acceptance. -/
structure DispatchedPayment where
  cardNumber : String
  expiryMonth : String
  expiryYear : String
  cvv : String
  amount : String
  orderId : String
  deriving Repr, DecidableEq

/-- Result of `processPayment`: acceptance, the rejection message when
rejected, and the dispatched payload when accepted. -/
structure PayOutcome where
  accepted : Bool
  errorMsg : Option String
  dispatched : Option DispatchedPayment
  deriving Repr, DecidableEq

/-- The required-fields truthiness check (lines 182-184); the shipping
address object itself is always present in this model. -/
def requiredFieldsMissing (d : PaymentData2) : Bool :=
  d.cardNumber.isEmpty || d.expiryMonth.isEmpty || d.expiryYear.isEmpty ||
    d.cvv.isEmpty || d.amount == 0 || d.orderId.isEmpty

/-- The shipping-address emptiness check (lines 208-211). -/
def shippingIncomplete (d : PaymentData2) : Bool :=
  (jsTrimS d.shippingAddress.address).isEmpty ||
    (jsTrimS d.shippingAddress.zipCode).isEmpty

/-- Model of `s.padStart(2, '0')`. -/
def jsPadStart2Zero (s : String) : String :=
  String.mk (List.replicate (2 - s.length) '0' ++ s.data)

/-- Model of `s.slice(-n)`. -/
def jsSliceLast (n : Nat) (s : String) : String :=
  String.mk (s.data.drop (s.data.length - n))

/-- Model of `processPayment` (second variant, lines 179-248): run the
validators in order, rejecting with the first failing check's message and
dispatching nothing; on success dispatch the normalized payload. -/
def processPayment2 (curYear2 curMonth : Int) (d : PaymentData2) : PayOutcome :=
  if requiredFieldsMissing d then
    { accepted := false, errorMsg := some "All payment fields are required",
      dispatched := none }
  else if !validateCardNumber (stripWsS d.cardNumber) then
    { accepted := false, errorMsg := some "Invalid card number", dispatched := none }
  else if !validateExpiryDate curYear2 curMonth d.expiryMonth d.expiryYear then
    { accepted := false, errorMsg := some "Invalid expiry date", dispatched := none }
  else if !validateCVV d.cvv then
    { accepted := false, errorMsg := some "Invalid CVV", dispatched := none }
  else if shippingIncomplete d then
    { accepted := false, errorMsg := some "Shipping address and ZIP code are required",
      dispatched := none }
  else
    { accepted := true, errorMsg := none,
      dispatched := some
        { cardNumber := stripWsS d.cardNumber,
          expiryMonth := jsPadStart2Zero d.expiryMonth,
          expiryYear := jsSliceLast 2 d.expiryYear,
          cvv := d.cvv, amount := jsToFixed2 d.amount, orderId := d.orderId } }

/-- C7 counterexample: the validator does NOT accept exactly the inputs the
claim describes.  (a) A card number containing a letter but 16 digits
(`4111111111111111x`) is accepted — `validateCardNumber` strips all
non-digits before counting, so the input is not 15-16 decimal digits after
whitespace stripping yet passes — and the letter is dispatched in the card
field.  (b) A 4-digit expired year (`12/2020`, current date 10/2026) is
accepted, because the code compares `parseInt(year)` against the 2-digit
current year. -/
theorem processPayment_accepts_malformed_input :
    (processPayment2 26 10
      { cardNumber := "4111111111111111x", expiryMonth := "12", expiryYear := "30",
        cvv := "123", amount := 1000, orderId := "o1",
        shippingAddress := { address := "1 Main St", zipCode := "85001" } }).accepted
      = true ∧
    (processPayment2 26 10
      { cardNumber := "4111111111111111x", expiryMonth := "12", expiryYear := "30",
        cvv := "123", amount := 1000, orderId := "o1",
        shippingAddress := { address := "1 Main St", zipCode := "85001" } }).dispatched
      = some { cardNumber := "4111111111111111x", expiryMonth := "12",
               expiryYear := "30", cvv := "123", amount := "10.00",
               orderId := "o1" } ∧
    (stripWsS "4111111111111111x").data.all Char.isDigit = false ∧
    (processPayment2 26 10
      { cardNumber := "4111111111111111", expiryMonth := "12", expiryYear := "2020",
        cvv := "123", amount := 1000, orderId := "o1",
        shippingAddress := { address := "1 Main St", zipCode := "85001" } }).accepted
      = true ∧
    jsParseInt "2020" = some 2020 ∧ (2020 : Int) < 2026 := by
  refine ⟨by decide, by decide, by decide, by decide, by decide, by decide⟩

/-- A decimal digit is not one of the JavaScript whitespace characters. -/
theorem isWsChar_of_isDigit (c : Char) (h : c.isDigit = true) : isWsChar c = false := by
  rw [Bool.eq_false_iff]
  intro hw
  have hw2 : c = ' ' ∨ c = '\t' ∨ c = '\n' ∨ c = '\r' ∨ c = '\x0b' ∨ c = '\x0c' := by
    simpa [isWsChar, or_assoc] using hw
  rcases hw2 with h1 | h1 | h1 | h1 | h1 | h1 <;> subst h1 <;> exact absurd h (by decide)

/-- Stripping whitespace does not change the digits of a string. -/
theorem digitsOf_stripWs (s : String) : digitsOf (stripWsS s) = digitsOf s := by
  simp only [digitsOf, stripWsS, List.filter_filter]
  apply List.filter_congr
  intro c _
  cases h : c.isDigit with
  | false => simp [h]
  | true => simp [h, isWsChar_of_isDigit c h]

/-- Every character surviving the digit filter is a digit. -/
theorem digitsOf_all_digits (s : String) : (digitsOf s).all Char.isDigit = true := by
  simp only [digitsOf, List.all_eq_true]
  intro c hc
  exact (List.mem_filter.mp hc).2

/-- C7 (amended): the validator accepts exactly when all required fields
are truthy, the card number contains 15-16 decimal digits (non-digit
characters are ignored by the count but retained in the dispatched card
number), the expiry passes the code's JavaScript-semantics date check
(parseInt with NaN comparisons false, year compared against the 2-digit
current year, so 4-digit years always pass the year test), the CVV is 3-4
decimal digits, and address line and ZIP are non-empty after trim; a
failing check rejects with the message naming the first failing field and
nothing is dispatched; on acceptance the normalized payload is
dispatched. -/
theorem processPayment_accept_characterization (curYear2 curMonth : Int)
    (d : PaymentData2) :
    ((processPayment2 curYear2 curMonth d).accepted =
      (!requiredFieldsMissing d && validateCardNumber (stripWsS d.cardNumber) &&
        validateExpiryDate curYear2 curMonth d.expiryMonth d.expiryYear &&
        validateCVV d.cvv && !shippingIncomplete d)) ∧
    (validateCardNumber (stripWsS d.cardNumber) = true ↔
      15 ≤ (digitsOf d.cardNumber).length ∧ (digitsOf d.cardNumber).length ≤ 16) ∧
    (validateCVV d.cvv = true ↔
      d.cvv.data.all Char.isDigit = true ∧ 3 ≤ d.cvv.length ∧ d.cvv.length ≤ 4) ∧
    ((processPayment2 curYear2 curMonth d).accepted = false →
      (processPayment2 curYear2 curMonth d).dispatched = none) ∧
    ((processPayment2 curYear2 curMonth d).accepted = true →
      (processPayment2 curYear2 curMonth d).dispatched =
        some { cardNumber := stripWsS d.cardNumber,
               expiryMonth := jsPadStart2Zero d.expiryMonth,
               expiryYear := jsSliceLast 2 d.expiryYear,
               cvv := d.cvv, amount := jsToFixed2 d.amount,
               orderId := d.orderId }) ∧
    (requiredFieldsMissing d = false →
      validateCardNumber (stripWsS d.cardNumber) = false →
      (processPayment2 curYear2 curMonth d).errorMsg = some "Invalid card number") ∧
    (requiredFieldsMissing d = false →
      validateCardNumber (stripWsS d.cardNumber) = true →
      validateExpiryDate curYear2 curMonth d.expiryMonth d.expiryYear = false →
      (processPayment2 curYear2 curMonth d).errorMsg = some "Invalid expiry date") ∧
    (requiredFieldsMissing d = false →
      validateCardNumber (stripWsS d.cardNumber) = true →
      validateExpiryDate curYear2 curMonth d.expiryMonth d.expiryYear = true →
      validateCVV d.cvv = false →
      (processPayment2 curYear2 curMonth d).errorMsg = some "Invalid CVV") := by
  have hcard : validateCardNumber (stripWsS d.cardNumber) = true ↔
      15 ≤ (digitsOf d.cardNumber).length ∧ (digitsOf d.cardNumber).length ≤ 16 := by
    rw [validateCardNumber, testDigits15to16, digitsOf_stripWs]
    simp [digitsOf_all_digits d.cardNumber]
  have hcvv : validateCVV d.cvv = true ↔
      d.cvv.data.all Char.isDigit = true ∧ 3 ≤ d.cvv.length ∧ d.cvv.length ≤ 4 := by
    rw [validateCVV]
    simp [and_assoc]
  refine ⟨?_, hcard, hcvv, ?_, ?_, ?_, ?_, ?_⟩ <;>
  · by_cases h1 : requiredFieldsMissing d <;>
    by_cases h2 : validateCardNumber (stripWsS d.cardNumber) <;>
    by_cases h3 : validateExpiryDate curYear2 curMonth d.expiryMonth d.expiryYear <;>
    by_cases h4 : validateCVV d.cvv <;>
    by_cases h5 : shippingIncomplete d <;>
    simp [processPayment2, h1, h2, h3, h4, h5]

/-- Witness for the amended validator theorem: a fully well-formed concrete
input is accepted and dispatched normalized. -/
theorem processPayment_accept_characterization_witness :
    (processPayment2 26 10
      { cardNumber := "4242 4242 4242 4242", expiryMonth := "12",
        expiryYear := "2030", cvv := "123", amount := 1999, orderId := "o1",
        shippingAddress := { address := "1 Main St", zipCode := "85001" } }).accepted
      = true := by
  have h := processPayment_accept_characterization 26 10
    { cardNumber := "4242 4242 4242 4242", expiryMonth := "12",
      expiryYear := "2030", cvv := "123", amount := 1999, orderId := "o1",
      shippingAddress := { address := "1 Main St", zipCode := "85001" } }
  rw [h.1]
  decide

/-! ## Log sanitisation (`part_002` and `process-payment.ts` lines 18-25)

`maskCardNumber` keeps only the last 4 characters of the whitespace-stripped
card number and pads with `*` back to its length; `maskCVV` replaces every
CVV character with `*`; `sanitizePaymentData` applies them to the sensitive
fields of a log payload and drops the restrict keys.  The
`process-payment.ts` variant renders the card as four `*` plus the last 4
characters and the CVV as `***`. -/

/-- Model of `s.padStart(n, pad)`. -/
def jsPadStart (n : Nat) (pad : Char) (cs : List Char) : List Char :=
  List.replicate (n - cs.length) pad ++ cs

/-- Model of `maskCardNumber` (`part_002` lines 6-9):
`cleaned.slice(-4).padStart(cleaned.length, '*')`. -/
def maskCardNumber (s : String) : String :=
  let cleaned := stripWsS s
  String.mk (jsPadStart cleaned.data.length '*' (jsSliceLast 4 cleaned).data)

/-- Model of `maskCVV` (`part_002` lines 12-14): `'*'.repeat(cvv.length)`. -/
def maskCVV (s : String) : String :=
  String.mk (List.replicate s.length '*')

/-- The sensitive fields of a loggable payment payload. -/
structure SanitizeInput where
  cardNumber : Option String
  cvv : Option String
  cardNo : Option String
  cvv2 : Option String
  restrictKey : Option String
  deriving Repr, DecidableEq

/-- Apply a masking function to a field only when the field is truthy, as
the source's `if (sanitized.x) sanitized.x = mask(sanitized.x)` does. -/
def jsMaskIfTruthy (f : String → String) : Option String → Option String
  | some s => some (if s.isEmpty then s else f s)
  | none => none

/-- Model of `sanitizePaymentData` (`part_002` lines 22-43): mask
`cardNumber`/`CardNo` with `maskCardNumber`, `cvv`/`CVV2` with `maskCVV`,
and delete the restrict-key fields. -/
def sanitizePaymentData (d : SanitizeInput) : SanitizeInput :=
  { cardNumber := jsMaskIfTruthy maskCardNumber d.cardNumber,
    cvv := jsMaskIfTruthy maskCVV d.cvv,
    cardNo := jsMaskIfTruthy maskCardNumber d.cardNo,
    cvv2 := jsMaskIfTruthy maskCVV d.cvv2,
    restrictKey := none }

/-- Model of the `process-payment.ts` sanitizer (lines 18-25): the card
number becomes four `*` plus its last 4 characters (or `undefined` when
falsy) and the CVV is always `***`. -/
def sanitizePaymentDataPP (cardNumber : String) : Option String × String :=
  (if cardNumber.isEmpty then none
   else some (String.mk ('*' :: '*' :: '*' :: '*' :: (jsSliceLast 4 cardNumber).data)),
   "***")

/-- Whether `n` occurs as a contiguous run inside `hay`. -/
def leadsWith : List Char → List Char → Bool
  | [], _ => true
  | _ :: _, [] => false
  | a :: as, b :: bs => a == b && leadsWith as bs

/-- Substring occurrence test used to state that cleartext never appears in
masked output. -/
def occursIn (n : List Char) : List Char → Bool
  | [] => n.isEmpty
  | c :: rest => leadsWith n (c :: rest) || occursIn n rest

/-- C8: sanitized diagnostic output never contains the cleartext card
number or CVV.  For every input, `maskCardNumber` keeps exactly the last 4
characters of the whitespace-stripped card number, replacing every other
character by `*`, and `maskCVV` masks every character; on the concrete
payload with card `4242424242424242` and cvv `123` both sanitizers produce
only masked forms (`************4242` / `****4242`, `***`) in which the
cleartext values do not occur. -/
theorem sanitized_output_masks_card_and_cvv :
    (∀ s : String, maskCardNumber s =
      String.mk (List.replicate ((stripWsS s).data.length - 4) '*' ++
        (stripWsS s).data.drop ((stripWsS s).data.length - 4))) ∧
    (∀ s : String, maskCVV s = String.mk (List.replicate s.length '*')) ∧
    maskCardNumber "4242424242424242" = "************4242" ∧
    maskCVV "123" = "***" ∧
    sanitizePaymentData ⟨some "4242424242424242", some "123", none, none, some "secret"⟩ =
      ⟨some "************4242", some "***", none, none, none⟩ ∧
    occursIn "4242424242424242".data "************4242".data = false ∧
    occursIn "123".data "***".data = false ∧
    sanitizePaymentDataPP "4242424242424242" = (some "****4242", "***") ∧
    occursIn "4242424242424242".data "****4242".data = false := by
  refine ⟨?_, ?_, by decide, by decide, by decide, by decide, by decide,
    by decide, by decide⟩
  · intro s
    rw [maskCardNumber, jsSliceLast, jsPadStart]
    have hlen : (((stripWsS s).data.drop ((stripWsS s).data.length - 4))).length =
        (stripWsS s).data.length - ((stripWsS s).data.length - 4) :=
      List.length_drop _ _
    rw [show (String.mk ((stripWsS s).data.drop ((stripWsS s).data.length - 4))).data =
        (stripWsS s).data.drop ((stripWsS s).data.length - 4) from rfl]
    rw [hlen]
    have harith : (stripWsS s).data.length - ((stripWsS s).data.length -
        ((stripWsS s).data.length - 4)) = (stripWsS s).data.length - 4 := by omega
    rw [harith]
  · intro s
    rfl

/-! ## Checkout page timeout and update handling (`CheckoutPage.tsx`)

`handleSubmit` (lines 204-211) arms a one-shot 120000 ms timer whose
handler surfaces the timeout error and navigates to the error page;
`handlePaymentUpdate` (lines 37-78) clears that timer on EVERY incoming
status update — terminal or not — and then navigates to the success,
declined, or error page.  The model is an event trace over the page state:
an `upd` event is a delivered status update, `fire` is the timer
expiring at the 120000 ms mark (a no-op once the timer is cleared). -/

/-- The browser-side overall timeout in milliseconds (line 211). -/
def checkoutTimeoutMs : Nat := 120000

/-- Navigation target of the checkout resolution. -/
inductive NavTarget where
  | success
  | declined
  | error
  deriving Repr, DecidableEq

/-- A surfaced checkout outcome: where the page navigates and the message
shown. -/
structure CkOutcome where
  nav : NavTarget
  message : Option String
  deriving Repr, DecidableEq

/-- Checkout page state: whether the timeout timer is still armed, and the
surfaced outcome, if any. -/
structure CkState where
  timerArmed : Bool
  outcome : Option CkOutcome
  deriving Repr, DecidableEq

/-- A status update delivered to `handlePaymentUpdate`. -/
structure CkUpdate where
  success : Bool
  status : String
  message : Option String
  deriving Repr, DecidableEq

/-- State right after `handleSubmit` armed the timer (line 205). -/
def ckInit : CkState :=
  { timerArmed := true, outcome := none }

/-- Model of `handlePaymentUpdate` (lines 37-78): clear the pending timer
first, then resolve to the success, declined, or error screen. -/
def handlePaymentUpdate (_s : CkState) (d : CkUpdate) : CkState :=
  { timerArmed := false,
    outcome := some (
      if d.success then { nav := NavTarget.success, message := d.message }
      else if d.status = "declined" then
        { nav := NavTarget.declined,
          message := some (jsOrD d.message
            "Payment was declined. Please check your card details and try again.") }
      else
        { nav := NavTarget.error,
          message := some (jsOrD d.message
            "Unable to process payment at this time. Please try again in a few moments.") }) }

/-- Model of the timer callback (lines 205-211): when the timer is still
armed at the 120000 ms mark it surfaces the timeout outcome on the
error path; a cleared timer never fires. -/
def timeoutFire (s : CkState) : CkState :=
  if s.timerArmed then
    { timerArmed := false,
      outcome := some ⟨NavTarget.error, some "Payment processing timeout"⟩ }
  else s

/-- Events observable by the checkout page after initiation. -/
inductive CkEvent where
  | upd (d : CkUpdate)
  | fire
  deriving Repr, DecidableEq

/-- One event step of the checkout page. -/
def ckStep (s : CkState) : CkEvent → CkState
  | CkEvent.upd d => handlePaymentUpdate s d
  | CkEvent.fire => timeoutFire s

/-- Run the checkout page over an event trace. -/
def ckRun (s : CkState) (evs : List CkEvent) : CkState :=
  evs.foldl ckStep s

/-- A disarmed timer stays disarmed over any further events. -/
theorem ckRun_stays_disarmed (evs : List CkEvent) :
    ∀ s : CkState, s.timerArmed = false → (ckRun s evs).timerArmed = false := by
  induction evs with
  | nil => intro s hs; exact hs
  | cons e t ih =>
    intro s hs
    cases e with
    | upd d => exact ih _ rfl
    | fire =>
      have : ckStep s CkEvent.fire = s := by
        simp [ckStep, timeoutFire, hs]
      rw [ckRun, List.foldl_cons, this]
      exact ih s hs

/-- C9 counterexample: a NON-terminal status update (`pending`) arriving
before the 2-minute mark clears the timer, so even though no terminal
status update was ever delivered, the page never surfaces the timeout
outcome — it surfaces the generic error outcome instead. -/
theorem checkout_nonterminal_update_suppresses_timeout :
    (ckRun ckInit [CkEvent.upd ⟨false, "pending", none⟩, CkEvent.fire]).outcome =
      some ⟨NavTarget.error,
        some "Unable to process payment at this time. Please try again in a few moments."⟩ ∧
    (ckRun ckInit [CkEvent.upd ⟨false, "pending", none⟩, CkEvent.fire]).outcome ≠
      some ⟨NavTarget.error, some "Payment processing timeout"⟩ := by
  exact ⟨rfl, by decide⟩

/-- C9 (amended): if no status update of any kind is delivered within
120000 ms of initiation, the page surfaces the timeout outcome
(`Payment processing timeout`) on the error path, which is distinct from
the declined path; and every status update — terminal or not — clears the
pending timer, after which the timer can never fire. -/
theorem checkout_timeout_surfaced_and_cancelled :
    checkoutTimeoutMs = 120000 ∧
    (ckRun ckInit [CkEvent.fire]).outcome =
      some ⟨NavTarget.error, some "Payment processing timeout"⟩ ∧
    NavTarget.error ≠ NavTarget.declined ∧
    (∀ (s : CkState) (d : CkUpdate), (handlePaymentUpdate s d).timerArmed = false) ∧
    (∀ s : CkState, s.timerArmed = false → timeoutFire s = s) ∧
    (∀ (d : CkUpdate) (evs : List CkEvent),
      (ckRun (ckStep ckInit (CkEvent.upd d)) evs).timerArmed = false) := by
  refine ⟨rfl, rfl, by decide, fun s d => rfl, ?_, ?_⟩
  · intro s hs
    simp [timeoutFire, hs]
  · intro d evs
    exact ckRun_stays_disarmed evs _ rfl

/-- Witness for the amended timeout theorem: after a concrete non-terminal
update, a later fire event leaves the state unchanged and the timer stays
disarmed. -/
theorem checkout_timeout_surfaced_and_cancelled_witness :
    timeoutFire ⟨false, none⟩ = ⟨false, none⟩ ∧
    (ckRun (ckStep ckInit (CkEvent.upd ⟨false, "pending", none⟩))
      [CkEvent.fire, CkEvent.fire]).timerArmed = false := by
  have h := checkout_timeout_surfaced_and_cancelled
  exact ⟨h.2.2.2.2.1 ⟨false, none⟩ rfl,
    h.2.2.2.2.2 ⟨false, "pending", none⟩ [CkEvent.fire, CkEvent.fire]⟩

/-! ## The polling subscriber (`part_003` lines 114-157)

`subscribeToOrder` waits 5 seconds, checks the order status once, then
polls every 5000 ms.  Each tick calls `checkOrderStatus`: an
`order not found` error keeps polling with no callback; otherwise the
callback fires with the observed status (defaulting to `pending`) and the
interval is cleared exactly when the status is `completed` or `failed`.
`unsubscribe` clears the interval, after which no tick runs. -/

/-- The polling interval in milliseconds (line 144). -/
def pollIntervalMs : Nat := 5000

/-- The initial grace delay before polling starts (line 117). -/
def pollGraceMs : Nat := 5000

/-- One observation returned by the `subscribe-to-order` function. -/
structure PollResult where
  notFound : Bool
  status : Option String
  deriving Repr, DecidableEq

/-- Polling state: whether the interval is still active and the statuses
delivered to the callback so far. -/
structure PollState where
  active : Bool
  delivered : List String
  deriving Repr, DecidableEq

/-- Polling state when the interval is installed. -/
def pollInit : PollState :=
  { active := true, delivered := [] }

/-- The stop condition of line 132: `['completed', 'failed'].includes(status)`. -/
def stopsPolling (status : String) : Bool :=
  status = "completed" || status = "failed"

/-- Model of one `checkOrderStatus` run (lines 119-138). -/
def checkOrderStatus (s : PollState) (r : PollResult) : PollState :=
  if r.notFound then s
  else
    let st := jsOrD r.status "pending"
    { active := s.active && !stopsPolling st, delivered := s.delivered ++ [st] }

/-- One interval tick: `checkOrderStatus` runs only while the interval is
active. -/
def pollTick (s : PollState) (r : PollResult) : PollState :=
  if s.active then checkOrderStatus s r else s

/-- Model of the returned `unsubscribe` (lines 147-152):
`clearInterval(interval)`. -/
def pollUnsubscribe (s : PollState) : PollState :=
  { s with active := false }

/-- Run the poller over a list of observations, one per tick. -/
def pollRun (s : PollState) (rs : List PollResult) : PollState :=
  rs.foldl pollTick s

/-- While every observation reports `paid`, polling stays active and the
callback fires once per tick. -/
theorem pollRun_paid (n : Nat) :
    ∀ s : PollState, s.active = true →
      pollRun s (List.replicate n ⟨false, some "paid"⟩) =
        { active := true, delivered := s.delivered ++ List.replicate n "paid" } := by
  induction n with
  | zero =>
    intro s hs
    cases s with
    | mk a d => simp_all [pollRun]
  | succ n ih =>
    intro s hs
    rw [List.replicate_succ, pollRun, List.foldl_cons]
    have hstep : pollTick s ⟨false, some "paid"⟩ =
        { active := true, delivered := s.delivered ++ ["paid"] } := by
      simp [pollTick, hs, checkOrderStatus, jsOrD, stopsPolling]
      decide
    rw [hstep]
    have := ih { active := true, delivered := s.delivered ++ ["paid"] } rfl
    rw [pollRun] at this
    rw [this]
    simp [List.replicate_succ, List.append_assoc]

/-- C10: the polling `subscribeToOrder` clears its interval only on the
statuses `completed` or `failed`; `paid` — the status the EPN ingestor
writes on an approved outcome — does not stop it, so the callback keeps
firing every 5000 ms tick until `unsubscribe` clears the interval, after
which ticks do nothing. -/
theorem polling_stops_only_on_completed_or_failed :
    pollIntervalMs = 5000 ∧
    (∀ st : String, stopsPolling st = true ↔ (st = "completed" ∨ st = "failed")) ∧
    stopsPolling "paid" = false ∧
    orderStatus (epnHandler (some "rk")
      "Success=Y,RespText=Approved,XactID=77,Postback.OrderID=ordA"
      [("ordA", ⟨"pending", none, none⟩)]).2 "ordA" = some "paid" ∧
    (∀ n : Nat,
      (pollRun pollInit (List.replicate n ⟨false, some "paid"⟩)).active = true ∧
      (pollRun pollInit (List.replicate n ⟨false, some "paid"⟩)).delivered =
        List.replicate n "paid") ∧
    (∀ (s : PollState) (r : PollResult), pollTick (pollUnsubscribe s) r = pollUnsubscribe s) := by
  refine ⟨rfl, ?_, by decide, by decide, ?_, ?_⟩
  · intro st
    simp [stopsPolling]
  · intro n
    have h := pollRun_paid n pollInit rfl
    rw [h]
    exact ⟨rfl, by simp [pollInit]⟩
  · intro s r
    simp [pollTick, pollUnsubscribe]

/-- Witness for the polling theorem: after three `paid` observations the
poller is still active and has delivered three callbacks; a tick after
unsubscribing changes nothing. -/
theorem polling_stops_only_on_completed_or_failed_witness :
    (pollRun pollInit (List.replicate 3 ⟨false, some "paid"⟩)).active = true ∧
    (pollRun pollInit (List.replicate 3 ⟨false, some "paid"⟩)).delivered =
      List.replicate 3 "paid" ∧
    pollTick (pollUnsubscribe ⟨true, ["paid"]⟩) ⟨false, some "paid"⟩ =
      pollUnsubscribe ⟨true, ["paid"]⟩ := by
  have h := polling_stops_only_on_completed_or_failed
  exact ⟨(h.2.2.2.2.1 3).1, (h.2.2.2.2.1 3).2,
    h.2.2.2.2.2 ⟨true, ["paid"]⟩ ⟨false, some "paid"⟩⟩
